import Mathlib

/-
Verification of the token-lifecycle core of a user-account backend
(controllers in src/controllers/user.controller.js).

The embedding models:
  - JWTs as payload+signature records (`Jwt`), signed and verified with a
    shared secret string;
  - the user store as a list of user records plus a flag saying whether the
    next persistence write fails (`Db`);
  - `generateAccessAndRefreshToken`, `loginUser`, `logoutUser` and
    `refereshAccessToken` as state-passing functions returning
    `Except ApiError _ × Db`.
JS `undefined` is modelled as `Option.none`; reading an object property that
the object does not have yields `none`.
-/

/-- A signed token. `payload` is the user id embedded in the token (the JS
code reads it as `decodedToken?._id`); `sig` is the signature segment. -/
structure Jwt where
  payload : Nat
  sig : String
deriving DecidableEq, Repr

/-- Model MAC: the signature a token for `payload` carries when honestly
signed with `secret`. -/
def tokenSignature (secret : String) (payload : Nat) : String :=
  secret ++ "#" ++ Nat.repr payload

/-- Modelled from the jsonwebtoken library: `jwt.sign(payload, secret)`. -/
def jwtSign (secret : String) (payload : Nat) : Jwt :=
  { payload := payload, sig := tokenSignature secret payload }

/-- Modelled from the jsonwebtoken library: `jwt.verify(token, secret)`
returns the decoded payload, or fails (throws) when the signature does not
match the secret. -/
def jwtVerify (secret : String) (t : Jwt) : Option Nat :=
  if t.sig = tokenSignature secret t.payload then some t.payload else none

/-- Message of the error the jsonwebtoken library throws on a signature
mismatch in `jwt.verify`. -/
def jwtInvalidSignatureMessage : String := "invalid signature"

/-- Mirrors `utils/ApiError.js`: a thrown error carrying an HTTP status code
and a human-readable message. -/
structure ApiError where
  statusCode : Nat
  message : String
deriving DecidableEq, Repr

/-- Equality of `Except` results is decidable when both components are. -/
instance exceptDecEq {ε α : Type} [DecidableEq ε] [DecidableEq α] :
    DecidableEq (Except ε α) := fun a b =>
  match a, b with
  | Except.error e1, Except.error e2 =>
    if h : e1 = e2 then Decidable.isTrue (by rw [h])
    else Decidable.isFalse (by intro hc; cases hc; exact h rfl)
  | Except.error _, Except.ok _ => Decidable.isFalse (by intro hc; cases hc)
  | Except.ok _, Except.error _ => Decidable.isFalse (by intro hc; cases hc)
  | Except.ok a1, Except.ok a2 =>
    if h : a1 = a2 then Decidable.isTrue (by rw [h])
    else Decidable.isFalse (by intro hc; cases hc; exact h rfl)

/-- A user document (`models/user.model.js`). `refreshToken` is the single
persisted refresh-token field; `none` models JS `undefined`/unset. -/
structure User where
  id : Nat
  username : String
  email : String
  password : String
  refreshToken : Option Jwt
deriving DecidableEq, Repr

/-- JS property access `user?.refereshAccessToken` in
`user.controller.js:190`: the user document has no field of that name (the
persisted field is `refreshToken`), so the access yields `undefined`. -/
def User.refereshAccessToken (_ : User) : Option Jwt := none

/-- The persisted user store, plus a flag modelling whether a persistence
write (`user.save`) currently fails. -/
structure Db where
  users : List User
  saveFails : Bool
deriving DecidableEq, Repr

/-- `User.findById(id)`. -/
def findById (db : Db) (uid : Nat) : Option User :=
  db.users.find? (fun u => u.id == uid)

/-- `User.findOne({ $or: [{username}, {email}] })`. -/
def findByUsernameOrEmail (db : Db) (username email : Option String) : Option User :=
  db.users.find? (fun u => username == some u.username || email == some u.email)

/-- Process-wide signing configuration: the two distinct secrets
(`ACCESS_TOKEN_SECRET`, `REFRESH_TOKEN_SECRET`). -/
structure Config where
  accessSecret : String
  refreshSecret : String

/-- Modelled from the spec: `user.generateAccessToken()` in the user model
(models/user.model.js, not under src/) mints a signed access token embedding
the user's id, signed with the access secret. -/
def generateAccessToken (cfg : Config) (u : User) : Jwt :=
  jwtSign cfg.accessSecret u.id

/-- Modelled from the spec: `user.generateRefreshToken()` in the user model
(models/user.model.js, not under src/) mints a signed refresh token embedding
the user's id, signed with the refresh secret. -/
def generateRefreshToken (cfg : Config) (u : User) : Jwt :=
  jwtSign cfg.refreshSecret u.id

/-- Modelled from the spec: `user.isPasswordCorrect(pw)` in the user model
(models/user.model.js, not under src/) is the Credential Store's
verify-password capability. -/
def isPasswordCorrect (u : User) (pw : String) : Bool :=
  u.password == pw

/-- The object returned by `generateAccessAndRefreshToken`:
`{ accessToken, refreshToken }`. -/
structure TokenPair where
  accessToken : Jwt
  refreshToken : Jwt
deriving DecidableEq, Repr

/-- JS destructuring `const { accessToken, newRefreshToken } = ...` in
`user.controller.js:199`: the returned object has no `newRefreshToken` key
(the function returns `{ accessToken, refreshToken }`), so the read yields
`undefined`. -/
def TokenPair.newRefreshToken (_ : TokenPair) : Option Jwt := none

/-- The fixed message of the blanket catch in
`generateAccessAndRefreshToken`. -/
def infraErrorMessage : String :=
  "Something went wrong while generating the access and refresh token"

/-- `user.save()` after mutating a fetched document: replaces the stored
document with the same id. -/
def updateUserInDb (db : Db) (nu : User) : Db :=
  { db with users := db.users.map (fun u => if u.id == nu.id then nu else u) }

/-- `generateAccessAndRefreshToken(userId)` (user.controller.js:10-24):
fetch the user, mint both tokens, persist the refresh token on the record,
return the pair; any error inside (user not found, so the method call on
`null` throws, or the save failing) is caught and rethrown as
`ApiError(500, <fixed message>)`. -/
def generateAccessAndRefreshToken (cfg : Config) (db : Db) (userId : Nat) :
    Except ApiError TokenPair × Db :=
  match findById db userId with
  | none => (Except.error { statusCode := 500, message := infraErrorMessage }, db)
  | some user =>
    let accessToken := generateAccessToken cfg user
    let refreshToken := generateRefreshToken cfg user
    if db.saveFails then
      (Except.error { statusCode := 500, message := infraErrorMessage }, db)
    else
      (Except.ok { accessToken := accessToken, refreshToken := refreshToken },
        updateUserInDb db { user with refreshToken := some refreshToken })

/-- The response body of a successful login: the token pair (cookies and
JSON body both carry the two tokens). -/
structure LoginResponse where
  accessToken : Jwt
  refreshToken : Jwt
deriving DecidableEq, Repr

/-- JS truthiness of an optional string (`undefined` and `""` are falsy). -/
def jsTruthy : Option String → Bool
  | none => false
  | some s => !(s == "")

/-- `loginUser` (user.controller.js:98-146): require a username or email,
find the user, check the password, then delegate to
`generateAccessAndRefreshToken` and return both tokens. -/
def loginUser (cfg : Config) (db : Db) (username email : Option String)
    (password : String) : Except ApiError LoginResponse × Db :=
  if !jsTruthy username && !jsTruthy email then
    (Except.error { statusCode := 400, message := "username or email is required !" }, db)
  else
    match findByUsernameOrEmail db username email with
    | none => (Except.error { statusCode := 404, message := "User does not exist" }, db)
    | some user =>
      if !isPasswordCorrect user password then
        (Except.error { statusCode := 401, message := "Invalid user credentials !" }, db)
      else
        match generateAccessAndRefreshToken cfg db user.id with
        | (Except.error e, db2) => (Except.error e, db2)
        | (Except.ok pair, db2) =>
          (Except.ok { accessToken := pair.accessToken, refreshToken := pair.refreshToken }, db2)

/-- `logoutUser` (user.controller.js:148-169):
`findByIdAndUpdate(req.user._id, { $set: { refreshToken: undefined } })` —
the persisted refresh-token field of the caller's record is set to
`undefined` (modelled as `none`). -/
def logoutUser (db : Db) (uid : Nat) : Db :=
  { db with
    users := db.users.map (fun u =>
      if u.id == uid then { u with refreshToken := none } else u) }

/-- Modelled from the spec and src/jwt-notes.md: the `verifyJWT` middleware
(middlewares/auth.middleware.js, not under src/) extracts the access token,
verifies it, and resolves to the embedded user id. -/
def verifyJWT (cfg : Config) (token : Option Jwt) : Except ApiError Nat :=
  match token with
  | none => Except.error { statusCode := 401, message := "Access Denied: No Token Provided" }
  | some t =>
    match jwtVerify cfg.accessSecret t with
    | none => Except.error { statusCode := 403, message := "Invalid or Expired Token" }
    | some uid => Except.ok uid

/-- The JSON body of a successful refresh:
`{ accessToken, refreshToken: newRefreshToken }`. The refresh-token slot is
an `Option` because the code fills it from the destructured
`newRefreshToken`. -/
structure RefreshResponse where
  accessToken : Jwt
  refreshToken : Option Jwt
deriving DecidableEq, Repr

/-- The `catch` block of `refereshAccessToken` (user.controller.js:210-212):
`throw new ApiError(401, error?.message || "Invalid refresh token")`. -/
def catch401 (e : ApiError) : ApiError :=
  { statusCode := 401
    message := if e.message = "" then "Invalid refresh token" else e.message }

/-- The `try` block of `refereshAccessToken` (user.controller.js:178-209):
verify the refresh token, look up the user by the embedded id, compare the
incoming token against `user?.refereshAccessToken` (a field absent from the
record, hence `none`), then mint a new pair and answer with
`{ accessToken, refreshToken: newRefreshToken }`. -/
def refreshTryBody (cfg : Config) (db : Db) (tok : Jwt) :
    Except ApiError RefreshResponse × Db :=
  match jwtVerify cfg.refreshSecret tok with
  | none => (Except.error { statusCode := 401, message := jwtInvalidSignatureMessage }, db)
  | some decodedId =>
    match findById db decodedId with
    | none => (Except.error { statusCode := 401, message := "Invalid refresh token" }, db)
    | some user =>
      if some tok ≠ User.refereshAccessToken user then
        (Except.error { statusCode := 401, message := "Refresh Token is expiered or used" }, db)
      else
        match generateAccessAndRefreshToken cfg db user.id with
        | (Except.error e, db2) => (Except.error e, db2)
        | (Except.ok pair, db2) =>
          (Except.ok { accessToken := pair.accessToken
                       refreshToken := TokenPair.newRefreshToken pair }, db2)

/-- `refereshAccessToken` (user.controller.js:171-213): reject an absent
token with 401, then run the try block; any error thrown inside it is caught
and rewrapped as `ApiError(401, error?.message || "Invalid refresh token")`. -/
def refereshAccessToken (cfg : Config) (db : Db) (incoming : Option Jwt) :
    Except ApiError RefreshResponse × Db :=
  match incoming with
  | none => (Except.error { statusCode := 401, message := "unauthorized request" }, db)
  | some tok =>
    match refreshTryBody cfg db tok with
    | (Except.error e, db2) => (Except.error (catch401 e), db2)
    | (Except.ok r, db2) => (Except.ok r, db2)


/-- Concrete signing configuration used for evaluation witnesses. -/
def cfgW : Config := { accessSecret := "access-secret", refreshSecret := "refresh-secret" }

/-- A refresh token honestly issued for user 1 under `cfgW`. -/
def aliceTok : Jwt := jwtSign "refresh-secret" 1

/-- A concrete user whose persisted refresh token is `aliceTok`. -/
def alice : User :=
  { id := 1, username := "alice", email := "alice@example.com", password := "pw1"
    refreshToken := some aliceTok }

/-- A concrete store holding `alice`, with persistence writes succeeding. -/
def dbW : Db := { users := [alice], saveFails := false }

/-- A refresh token honestly issued for user 2 under `cfgW`. -/
def bobTok : Jwt := jwtSign "refresh-secret" 2

/-- A concrete user whose persisted refresh token is `bobTok`. -/
def bob : User :=
  { id := 2, username := "bob", email := "bob@example.com", password := "pw2"
    refreshToken := some bobTok }

/-- A concrete store holding `alice` and `bob`. -/
def dbW2 : Db := { users := [alice, bob], saveFails := false }

/-- A token whose signature segment matches no secret. -/
def badTok : Jwt := { payload := 1, sig := "bogus" }

/-- A well-signed refresh token embedding an id with no user record. -/
def orphanTok : Jwt := jwtSign "refresh-secret" 99

/-- A store in which the next persistence write fails. -/
def dbFailW : Db := { users := [alice], saveFails := true }

/-- An access token honestly issued for user 1 under `cfgW`. -/
def aliceAccessTok : Jwt := jwtSign "access-secret" 1

theorem jwtVerify_jwtSign (s : String) (p : Nat) : jwtVerify s (jwtSign s p) = some p := by
  unfold jwtVerify jwtSign
  simp

theorem findById_some_id {db : Db} {uid : Nat} {u : User}
    (h : findById db uid = some u) : u.id = uid := by
  have hp := List.find?_some h
  simpa using hp

theorem find?_map_if (l : List User) (uid : Nat) (f : User → User)
    (hf : ∀ u : User, u.id = uid → (f u).id = uid) :
    (l.map (fun u => if u.id == uid then f u else u)).find? (fun u => u.id == uid)
      = (l.find? (fun u => u.id == uid)).map f := by
  rw [List.find?_map]
  have hpred : ((fun u : User => u.id == uid) ∘ (fun u => if u.id == uid then f u else u))
      = (fun u : User => u.id == uid) := by
    funext u
    by_cases h : u.id = uid
    · simp [h, hf u h]
    · simp [h]
  rw [hpred]
  cases hfind : l.find? (fun u => u.id == uid) with
  | none => rfl
  | some u =>
    have hu : u.id = uid := by simpa using List.find?_some hfind
    simp [hu]

theorem findById_updateUserInDb (db : Db) (nu : User) :
    findById (updateUserInDb db nu) nu.id = (findById db nu.id).map (fun _ => nu) := by
  unfold findById updateUserInDb
  exact find?_map_if db.users nu.id (fun _ => nu) (fun _ _ => rfl)

theorem findById_logoutUser (db : Db) (uid : Nat) :
    findById (logoutUser db uid) uid
      = (findById db uid).map (fun u => { u with refreshToken := none }) := by
  unfold findById logoutUser
  exact find?_map_if db.users uid _ (fun _ h => h)

theorem refresh_found_errors (cfg : Config) (db : Db) (tok : Jwt) (uid : Nat)
    (user : User)
    (hdec : jwtVerify cfg.refreshSecret tok = some uid)
    (hfind : findById db uid = some user) :
    (refereshAccessToken cfg db (some tok)).fst
      = Except.error { statusCode := 401, message := "Refresh Token is expiered or used" } := by
  have hbody : refreshTryBody cfg db tok
      = (Except.error { statusCode := 401, message := "Refresh Token is expiered or used" }, db) := by
    simp [refreshTryBody, hdec, hfind, User.refereshAccessToken]
  simp [refereshAccessToken, hbody, catch401]

/-- C1: the claim fails on the code. For a refresh request that passes the
presence, signature and identity-lookup checks and whose presented token IS
the identity record's persisted refresh-token value, the operation still
fails with the TokenRevoked error ("Refresh Token is expiered or used"):
the comparison at user.controller.js:190 reads `user?.refereshAccessToken`,
a field that does not exist on the record (the persisted field is
`refreshToken`), so it never sees the persisted value and rejects every
presented token. -/
theorem c1_persisted_token_still_revoked (cfg : Config) (db : Db) (tok : Jwt)
    (uid : Nat) (user : User)
    (hdec : jwtVerify cfg.refreshSecret tok = some uid)
    (hfind : findById db uid = some user)
    (_hpers : user.refreshToken = some tok) :
    (refereshAccessToken cfg db (some tok)).fst
      = Except.error { statusCode := 401, message := "Refresh Token is expiered or used" } :=
  refresh_found_errors cfg db tok uid user hdec hfind

/-- Witness for C1: user 1 presents exactly the refresh token persisted on
its record, and the refresh operation still answers TokenRevoked. -/
theorem c1_persisted_token_still_revoked_witness :
    jwtVerify cfgW.refreshSecret aliceTok = some 1 ∧
    findById dbW 1 = some alice ∧
    alice.refreshToken = some aliceTok ∧
    (refereshAccessToken cfgW dbW (some aliceTok)).fst
      = Except.error { statusCode := 401, message := "Refresh Token is expiered or used" } :=
  ⟨by decide, by decide, by decide,
    c1_persisted_token_still_revoked cfgW dbW aliceTok 1 alice
      (by decide) (by decide) (by decide)⟩

/-- C2: the claim fails on the code. At a concrete input where the presented
refresh token equals the persisted refresh-token value, the operation does
not mint and return a new pair: it fails with the TokenRevoked error.
Moreover the success branch could never return the new refresh token: it
destructures `newRefreshToken` from the issuer's result, which only has
fields `accessToken` and `refreshToken`, so the read yields `undefined`
(the last conjunct evaluates that read on the pair the issuer would mint for
user 2). -/
theorem c2_matching_token_yields_no_pair :
    bob.refreshToken = some bobTok ∧
    (refereshAccessToken cfgW dbW2 (some bobTok)).fst
      = Except.error { statusCode := 401, message := "Refresh Token is expiered or used" } ∧
    TokenPair.newRefreshToken
      { accessToken := jwtSign "access-secret" 2, refreshToken := jwtSign "refresh-secret" 2 }
        = none := by
  refine ⟨by decide, by decide, rfl⟩

/-- C3: issuing a token pair for an identity overwrites the persisted
refresh-token field with the newly minted refresh token, and afterwards a
refresh attempt presenting any previously issued (still well-signed) refresh
token `v1` for that identity fails with the TokenRevoked error. -/
theorem c3_rotation_overwrites_and_revokes (cfg : Config) (db : Db) (uid : Nat)
    (user : User) (v1 : Jwt)
    (hfind : findById db uid = some user)
    (hsave : db.saveFails = false)
    (hv1 : jwtVerify cfg.refreshSecret v1 = some uid) :
    (generateAccessAndRefreshToken cfg db uid).fst
        = Except.ok { accessToken := generateAccessToken cfg user
                      refreshToken := generateRefreshToken cfg user } ∧
    (findById (generateAccessAndRefreshToken cfg db uid).snd uid).map User.refreshToken
        = some (some (generateRefreshToken cfg user)) ∧
    (refereshAccessToken cfg (generateAccessAndRefreshToken cfg db uid).snd (some v1)).fst
        = Except.error { statusCode := 401, message := "Refresh Token is expiered or used" } := by
  have huid : user.id = uid := findById_some_id hfind
  have hgen : generateAccessAndRefreshToken cfg db uid
      = (Except.ok { accessToken := generateAccessToken cfg user
                     refreshToken := generateRefreshToken cfg user },
          updateUserInDb db { user with refreshToken := some (generateRefreshToken cfg user) }) := by
    simp [generateAccessAndRefreshToken, hfind, hsave]
  have hfind2 : findById (generateAccessAndRefreshToken cfg db uid).snd uid
      = some { user with refreshToken := some (generateRefreshToken cfg user) } := by
    rw [hgen]
    have hid : ({ user with refreshToken := some (generateRefreshToken cfg user) } : User).id
        = uid := huid
    rw [show uid = ({ user with refreshToken := some (generateRefreshToken cfg user) } : User).id
          from hid.symm]
    rw [findById_updateUserInDb]
    rw [hid, hfind]
    rfl
  refine ⟨by rw [hgen], by rw [hfind2]; rfl, ?_⟩
  exact refresh_found_errors cfg _ v1 uid _ hv1 hfind2

/-- Witness for C3: issuing a pair for user 1 persists the minted refresh
token, and refreshing with the previously persisted token `aliceTok`
afterwards fails with TokenRevoked. -/
theorem c3_rotation_overwrites_and_revokes_witness :
    (generateAccessAndRefreshToken cfgW dbW 1).fst
        = Except.ok { accessToken := generateAccessToken cfgW alice
                      refreshToken := generateRefreshToken cfgW alice } ∧
    (findById (generateAccessAndRefreshToken cfgW dbW 1).snd 1).map User.refreshToken
        = some (some (generateRefreshToken cfgW alice)) ∧
    (refereshAccessToken cfgW (generateAccessAndRefreshToken cfgW dbW 1).snd (some aliceTok)).fst
        = Except.error { statusCode := 401, message := "Refresh Token is expiered or used" } :=
  c3_rotation_overwrites_and_revokes cfgW dbW 1 alice aliceTok
    (by decide) (by decide) (by decide)

/-- C4: given a valid access token resolving to an identity present in the
store, logout sets the persisted refresh-token field of that identity's
record to the unset sentinel, and a subsequent refresh attempt presenting
the refresh token that was persisted immediately before logout fails with
the TokenRevoked error. -/
theorem c4_logout_clears_and_revokes (cfg : Config) (db : Db) (uid : Nat)
    (user : User) (atok rtok : Jwt)
    (_hauth : verifyJWT cfg (some atok) = Except.ok uid)
    (hfind : findById db uid = some user)
    (_hpers : user.refreshToken = some rtok)
    (hv : jwtVerify cfg.refreshSecret rtok = some uid) :
    (findById (logoutUser db uid) uid).map User.refreshToken = some none ∧
    (refereshAccessToken cfg (logoutUser db uid) (some rtok)).fst
      = Except.error { statusCode := 401, message := "Refresh Token is expiered or used" } := by
  have hfind2 : findById (logoutUser db uid) uid
      = some { user with refreshToken := none } := by
    rw [findById_logoutUser, hfind]
    rfl
  refine ⟨by rw [hfind2]; rfl, ?_⟩
  exact refresh_found_errors cfg _ rtok uid _ hv hfind2

/-- Witness for C4: user 1 logs out holding a valid access token; the
persisted refresh token becomes unset and refreshing with the pre-logout
token fails with TokenRevoked. -/
theorem c4_logout_clears_and_revokes_witness :
    (findById (logoutUser dbW 1) 1).map User.refreshToken = some none ∧
    (refereshAccessToken cfgW (logoutUser dbW 1) (some aliceTok)).fst
      = Except.error { statusCode := 401, message := "Refresh Token is expiered or used" } :=
  c4_logout_clears_and_revokes cfgW dbW 1 alice aliceAccessTok aliceTok
    (by decide) (by decide) (by decide) (by decide)

/-- C5: token-pair issuance never partially completes. When the persistence
write fails it signals the generic 500 infrastructure failure and leaves the
store untouched; in general every issuance either fails with that generic
error (surfacing no token, store unchanged) or succeeds with both tokens
returned and the refresh token persisted on the identity record. -/
theorem c5_issuance_all_or_nothing (cfg : Config) (db : Db) (uid : Nat) :
    (db.saveFails = true →
      generateAccessAndRefreshToken cfg db uid
        = (Except.error { statusCode := 500, message := infraErrorMessage }, db)) ∧
    ((generateAccessAndRefreshToken cfg db uid).fst
          = Except.error { statusCode := 500, message := infraErrorMessage } ∧
        (generateAccessAndRefreshToken cfg db uid).snd = db
      ∨ ∃ pair : TokenPair,
          (generateAccessAndRefreshToken cfg db uid).fst = Except.ok pair ∧
          (findById (generateAccessAndRefreshToken cfg db uid).snd uid).map User.refreshToken
            = some (some pair.refreshToken)) := by
  constructor
  · intro hsf
    cases hfind : findById db uid with
    | none => simp [generateAccessAndRefreshToken, hfind]
    | some user => simp [generateAccessAndRefreshToken, hfind, hsf]
  · cases hfind : findById db uid with
    | none => left; constructor <;> simp [generateAccessAndRefreshToken, hfind]
    | some user =>
      cases hsf : db.saveFails with
      | true => left; constructor <;> simp [generateAccessAndRefreshToken, hfind, hsf]
      | false =>
        right
        have huid : user.id = uid := findById_some_id hfind
        have hgen : generateAccessAndRefreshToken cfg db uid
            = (Except.ok { accessToken := generateAccessToken cfg user
                           refreshToken := generateRefreshToken cfg user },
                updateUserInDb db { user with refreshToken := some (generateRefreshToken cfg user) }) := by
          simp [generateAccessAndRefreshToken, hfind, hsf]
        refine ⟨{ accessToken := generateAccessToken cfg user
                  refreshToken := generateRefreshToken cfg user }, by rw [hgen], ?_⟩
        rw [hgen]
        have hid : ({ user with refreshToken := some (generateRefreshToken cfg user) } : User).id
            = uid := huid
        rw [show uid = ({ user with refreshToken := some (generateRefreshToken cfg user) } : User).id
              from hid.symm]
        rw [findById_updateUserInDb]
        rw [hid, hfind]
        rfl

/-- Witness for C5: with the store's write failing, issuance for user 1
returns the generic 500 infrastructure error and leaves the store as it
was. -/
theorem c5_issuance_all_or_nothing_witness :
    generateAccessAndRefreshToken cfgW dbFailW 1
      = (Except.error { statusCode := 500, message := infraErrorMessage }, dbFailW) :=
  (c5_issuance_all_or_nothing cfgW dbFailW 1).1 (by decide)

/-- C6: the refresh operation fails at the first failing check with the
corresponding error: an absent token gives the 401 "unauthorized request"
error (Unauthenticated); a token failing the signature check gives a 401
carrying the verifier's "invalid signature" message (InvalidToken); a
well-signed token whose embedded id matches no record gives the 401
"Invalid refresh token" error (IdentityNotFound). -/
theorem c6_refresh_error_order (cfg : Config) (db : Db) :
    (refereshAccessToken cfg db none).fst
        = Except.error { statusCode := 401, message := "unauthorized request" } ∧
    (∀ tok : Jwt, jwtVerify cfg.refreshSecret tok = none →
      (refereshAccessToken cfg db (some tok)).fst
        = Except.error { statusCode := 401, message := jwtInvalidSignatureMessage }) ∧
    (∀ (tok : Jwt) (uid : Nat), jwtVerify cfg.refreshSecret tok = some uid →
      findById db uid = none →
      (refereshAccessToken cfg db (some tok)).fst
        = Except.error { statusCode := 401, message := "Invalid refresh token" }) := by
  refine ⟨rfl, ?_, ?_⟩
  · intro tok hdec
    have hbody : refreshTryBody cfg db tok
        = (Except.error { statusCode := 401, message := jwtInvalidSignatureMessage }, db) := by
      simp [refreshTryBody, hdec]
    simp [refereshAccessToken, hbody, catch401, jwtInvalidSignatureMessage]
  · intro tok uid hdec hfind
    have hbody : refreshTryBody cfg db tok
        = (Except.error { statusCode := 401, message := "Invalid refresh token" }, db) := by
      simp [refreshTryBody, hdec, hfind]
    simp [refereshAccessToken, hbody, catch401]

/-- Witness for C6: the three early-failure cases evaluated on the concrete
store: no token, a token with a bogus signature, and a well-signed token for
the unknown id 99. -/
theorem c6_refresh_error_order_witness :
    (refereshAccessToken cfgW dbW none).fst
        = Except.error { statusCode := 401, message := "unauthorized request" } ∧
    (refereshAccessToken cfgW dbW (some badTok)).fst
        = Except.error { statusCode := 401, message := jwtInvalidSignatureMessage } ∧
    (refereshAccessToken cfgW dbW (some orphanTok)).fst
        = Except.error { statusCode := 401, message := "Invalid refresh token" } :=
  ⟨(c6_refresh_error_order cfgW dbW).1,
    (c6_refresh_error_order cfgW dbW).2.1 badTok (by decide),
    (c6_refresh_error_order cfgW dbW).2.2 orphanTok 99 (by decide) (by decide)⟩

/-- C7: round trip. For an identity present in the store (with the
persistence write succeeding), issuing a token pair succeeds, and verifying
the returned access token resolves to the same identity id the pair was
issued for. -/
theorem c7_issue_then_verify_round_trip (cfg : Config) (db : Db) (uid : Nat)
    (user : User)
    (hfind : findById db uid = some user)
    (hsave : db.saveFails = false) :
    (generateAccessAndRefreshToken cfg db uid).fst
        = Except.ok { accessToken := generateAccessToken cfg user
                      refreshToken := generateRefreshToken cfg user } ∧
    verifyJWT cfg (some (generateAccessToken cfg user)) = Except.ok uid := by
  have huid : user.id = uid := findById_some_id hfind
  constructor
  · simp [generateAccessAndRefreshToken, hfind, hsave]
  · have hv : jwtVerify cfg.accessSecret (generateAccessToken cfg user) = some user.id :=
      jwtVerify_jwtSign cfg.accessSecret user.id
    simp [verifyJWT, hv, huid]

/-- Witness for C7: issuing for user 1 and verifying the returned access
token resolves back to id 1. -/
theorem c7_issue_then_verify_round_trip_witness :
    (generateAccessAndRefreshToken cfgW dbW 1).fst
        = Except.ok { accessToken := generateAccessToken cfgW alice
                      refreshToken := generateRefreshToken cfgW alice } ∧
    verifyJWT cfgW (some (generateAccessToken cfgW alice)) = Except.ok 1 :=
  c7_issue_then_verify_round_trip cfgW dbW 1 alice (by decide) (by decide)

/-- C8: a login naming an existing identity but presenting a password that
fails the password check fails with the 401 "Invalid user credentials !"
error (CredentialMismatch), returns no token pair, and leaves the store —
in particular the identity's persisted refresh-token value — unchanged. -/
theorem c8_login_wrong_password_rejected (cfg : Config) (db : Db)
    (username email : Option String) (pw : String) (user : User)
    (hid : (jsTruthy username || jsTruthy email) = true)
    (hfind : findByUsernameOrEmail db username email = some user)
    (hpw : isPasswordCorrect user pw = false) :
    loginUser cfg db username email pw
      = (Except.error { statusCode := 401, message := "Invalid user credentials !" }, db) := by
  have hcond : (!jsTruthy username && !jsTruthy email) = false := by
    cases hju : jsTruthy username with
    | true => simp
    | false =>
      cases hje : jsTruthy email with
      | true => simp
      | false => rw [hju, hje] at hid; simp at hid
  simp [loginUser, hcond, hfind, hpw]

/-- Witness for C8: alice exists but presents the wrong password; login
answers CredentialMismatch and the store is unchanged. -/
theorem c8_login_wrong_password_rejected_witness :
    loginUser cfgW dbW (some "alice") none "wrong"
      = (Except.error { statusCode := 401, message := "Invalid user credentials !" }, dbW) :=
  c8_login_wrong_password_rejected cfgW dbW (some "alice") none "wrong" alice
    (by decide) (by decide) (by decide)

/-- C9: once a refresh token is presented, every failure of the refresh
operation is surfaced with status 401: the enclosing catch rewraps any
thrown error — including the 500 infrastructure failure the token issuer
throws when its persistence write fails — as a 401, so no refresh failure
carries the 500 severity. -/
theorem c9_refresh_failures_are_401 (cfg : Config) (db : Db) (tok : Jwt)
    (e : ApiError) (db2 : Db)
    (h : refereshAccessToken cfg db (some tok) = (Except.error e, db2)) :
    e.statusCode = 401 := by
  have hsplit : ∀ (res : Except ApiError RefreshResponse × Db),
      refreshTryBody cfg db tok = res →
      refereshAccessToken cfg db (some tok)
        = (match res with
           | (Except.error e0, dbx) => (Except.error (catch401 e0), dbx)
           | (Except.ok r, dbx) => (Except.ok r, dbx)) := by
    intro res hres
    simp [refereshAccessToken, hres]
  rcases hbody : refreshTryBody cfg db tok with ⟨res0, dbx⟩
  have hre := hsplit (res0, dbx) hbody
  cases res0 with
  | error e0 =>
    rw [hre] at h
    simp only [Prod.mk.injEq] at h
    have he : e = catch401 e0 := by
      have := h.1
      cases this
      rfl
    rw [he]
    rfl
  | ok r =>
    rw [hre] at h
    simp at h

/-- Witness for C9: a concrete refresh failure (bogus signature) surfaces
with status 401. -/
theorem c9_refresh_failures_are_401_witness :
    refereshAccessToken cfgW dbW (some badTok)
        = (Except.error { statusCode := 401, message := jwtInvalidSignatureMessage }, dbW) ∧
    ApiError.statusCode { statusCode := 401, message := jwtInvalidSignatureMessage } = 401 :=
  ⟨by decide,
    c9_refresh_failures_are_401 cfgW dbW badTok
      { statusCode := 401, message := jwtInvalidSignatureMessage } dbW (by decide)⟩

/-- C10: token-pair issuance for an id with no record does not fail with an
IdentityNotFound-style error: it fails with the same generic 500
infrastructure error (fixed message) that a failing persistence write
produces, because the blanket catch collapses every internal failure into
that single error. -/
theorem c10_unknown_identity_same_500 (cfg : Config) (db dbf : Db)
    (uid uidf : Nat)
    (hmiss : findById db uid = none)
    (hfail : dbf.saveFails = true) :
    generateAccessAndRefreshToken cfg db uid
      = (Except.error { statusCode := 500, message := infraErrorMessage }, db) ∧
    (generateAccessAndRefreshToken cfg dbf uidf).fst
      = Except.error { statusCode := 500, message := infraErrorMessage } := by
  constructor
  · simp [generateAccessAndRefreshToken, hmiss]
  · cases hfind : findById dbf uidf with
    | none => simp [generateAccessAndRefreshToken, hfind]
    | some user => simp [generateAccessAndRefreshToken, hfind, hfail]

/-- Witness for C10: issuance for the unknown id 99 yields the same generic
500 error as issuance for the known user 1 when the store write fails. -/
theorem c10_unknown_identity_same_500_witness :
    generateAccessAndRefreshToken cfgW dbW 99
      = (Except.error { statusCode := 500, message := infraErrorMessage }, dbW) ∧
    (generateAccessAndRefreshToken cfgW dbFailW 1).fst
      = Except.error { statusCode := 500, message := infraErrorMessage } :=
  c10_unknown_identity_same_500 cfgW dbW dbFailW 99 1 (by decide) (by decide)
